import Mathlib

/-!
Verification of the authentication/session core of the drop-FE client
(the AuthContext module: token store, token codec, session state, and the
Auth Gateway operations login, adminLogin, googleLogin, refreshTokens,
logout, getToken, checkAuth and the request interceptor).

The browser `localStorage` is modelled by a record holding the keys the
source reads and writes (`accessToken`, `refreshToken`, `user`, and the
extra `token` key written by googleLogin); `None` models an absent key.
The React session state (`user`, `isLoading`) and `window.location.href`
are carried in `AuthState`.  Everything external — the clock, `jwtDecode`
(which either yields a payload or throws, modelled by `Option`),
`JSON.parse` of the stored user, and each server endpoint's response —
is an oracle packaged in `Env`.  Each operation is a pure function from
`Env` and state to (result, new state, number of network calls made).
Time is in epoch seconds as in the source (`Date.now() / 1000` compared
against the token's `exp` claim).
-/

/-- A user record as in the source `User` interface. -/
inductive Role where
  | admin
  | client
deriving DecidableEq, Repr

structure User where
  id : String
  name : String
  email : String
  role : Option Role
deriving DecidableEq, Repr

/-- Payload of a decoded google identity token (source `GoogleUser`). -/
structure GoogleUser where
  email : String
  name : String
  picture : String
  sub : String
deriving DecidableEq, Repr

/-- Payload of a decoded access token (source `DecodedToken`). -/
structure DecodedToken where
  userId : String
  exp : Int
deriving DecidableEq, Repr

/-- The browser key-value store restricted to the keys the auth module
touches.  `none` = key absent. -/
structure Store where
  accessToken : Option String
  refreshToken : Option String
  user : Option String
  token : Option String
deriving DecidableEq, Repr

/-- Full client-side state: the store, the React session state
(`user`, `isLoading`) and the current navigation target
(`window.location.href` assignments, `none` = no redirect issued). -/
structure AuthState where
  store : Store
  user : Option User
  isLoading : Bool
  href : Option String
deriving DecidableEq, Repr

/-- Outcome of a signin-family endpoint: on success the response body's
user/admin record and token pair; on failure the optional
`response.data.message` field (`none` when the error carries no usable
message, e.g. a network failure or a body without `message`). -/
inductive LoginResult where
  | ok (user : User) (accessToken : String) (refreshToken : String)
  | err (message : Option String)
deriving DecidableEq, Repr

/-- The external world: clock, codecs and server endpoints.
`decode t = none` models `jwtDecode` throwing on `t`;
`parseUser s = none` models `JSON.parse` throwing on `s`;
`refresh rt = some (a, r)` models a 2xx refresh response delivering the
new token pair, `none` any rejection or network failure;
`logoutOk` is the (ignored) outcome of the server-side logout call. -/
structure Env where
  now : Int
  decode : String → Option DecodedToken
  decodeGoogle : String → Option GoogleUser
  parseUser : String → Option User
  stringifyUser : User → String
  signin : String → String → LoginResult
  adminSignin : String → String → LoginResult
  refresh : String → Option (String × String)
  logoutOk : String → Bool

/-- Remove the three credential keys, as the source's triple
`localStorage.removeItem` sequence does (the `token` key is untouched). -/
def clearKeys (st : Store) : Store :=
  { st with accessToken := none, refreshToken := none, user := none }

/-- Source `refreshTokens`: read the stored refresh token; absent →
`false` with no network call; otherwise POST to the refresh endpoint;
on success overwrite both tokens and return `true`; on failure clear the
three keys, null the session user, navigate to `/login`, return `false`.
Result: (returned boolean, new state, network calls made). -/
def refreshTokens (env : Env) (s : AuthState) : Bool × AuthState × Nat :=
  match s.store.refreshToken with
  | none => (false, s, 0)
  | some rt =>
    match env.refresh rt with
    | some (newAccessToken, newRefreshToken) =>
      (true,
       { s with store := { s.store with
           accessToken := some newAccessToken,
           refreshToken := some newRefreshToken } },
       1)
    | none =>
      (false,
       { s with store := clearKeys s.store, user := none, href := some "/login" },
       1)

/-- Source `getToken`: return the stored access token if it decodes and
is unexpired; if expired, delegate to `refreshTokens` and on success
return the freshly stored access token; `null` on every failure path.
Result: (returned token or `none`, new state, network calls made). -/
def getToken (env : Env) (s : AuthState) : Option String × AuthState × Nat :=
  match s.store.accessToken with
  | none => (none, s, 0)
  | some accessToken =>
    match env.decode accessToken with
    | none => (none, s, 0)
    | some decoded =>
      if decoded.exp < env.now then
        match refreshTokens env s with
        | (true, s1, n) => (s1.store.accessToken, s1, n)
        | (false, s1, n) => (none, s1, n)
      else
        (some accessToken, s, 0)

/-- Source `logout`: if an access token is stored, best-effort POST to
the logout endpoint (its outcome is swallowed: both branches of the
inner try/catch fall through); the `finally` block unconditionally nulls
the session user and removes the three keys.
Result: (new state, network calls made). -/
def logout (env : Env) (s : AuthState) : AuthState × Nat :=
  let n : Nat :=
    match s.store.accessToken with
    | some accessToken =>
      match env.logoutOk accessToken with
      | true => 1
      | false => 1
    | none => 0
  ({ s with store := clearKeys s.store, user := none }, n)

/-- Source `login`: set `isLoading`, POST to `/user/signin`; on success
store both tokens and the serialized user and set the session user; on
failure throw an `Error` whose message is the server's
`response.data.message` when present, else `"Invalid email or password"`;
the `finally` block clears `isLoading` on both paths.
Result: (thrown error or unit, new state, network calls made). -/
def login (env : Env) (email password : String) (s : AuthState) :
    Except String Unit × AuthState × Nat :=
  match env.signin email password with
  | LoginResult.ok u accessToken refreshToken =>
    (Except.ok (),
     { s with
       store := { s.store with
         accessToken := some accessToken,
         refreshToken := some refreshToken,
         user := some (env.stringifyUser u) },
       user := some u,
       isLoading := false },
     1)
  | LoginResult.err message =>
    let errorMessage :=
      match message with
      | some m => m
      | none => "Invalid email or password"
    (Except.error errorMessage, { s with isLoading := false }, 1)

/-- Source `adminLogin`: same shape as `login` against
`/user/admin-login`, storing the response's `admin` record, with generic
failure message `"Invalid admin credentials"`. -/
def adminLogin (env : Env) (email password : String) (s : AuthState) :
    Except String Unit × AuthState × Nat :=
  match env.adminSignin email password with
  | LoginResult.ok a accessToken refreshToken =>
    (Except.ok (),
     { s with
       store := { s.store with
         accessToken := some accessToken,
         refreshToken := some refreshToken,
         user := some (env.stringifyUser a) },
       user := some a,
       isLoading := false },
     1)
  | LoginResult.err message =>
    let errorMessage :=
      match message with
      | some m => m
      | none => "Invalid admin credentials"
    (Except.error errorMessage, { s with isLoading := false }, 1)

/-- Source `googleLogin`: the input models `credentialResponse.credential`
(`none` = field missing; the source's `if (!credential)` guard also fires
on the empty string).  Decode the credential locally, build a
`role: "client"` user, store the credential under both `accessToken` and
`token` plus the serialized user, and set the session user.  Any throw in
the try block (missing credential or failed decode) is re-thrown as
`"Google login failed"`; `finally` clears `isLoading`.  No network call
is made on any path. -/
def googleLogin (env : Env) (credential : Option String) (s : AuthState) :
    Except String Unit × AuthState :=
  match credential with
  | none => (Except.error "Google login failed", { s with isLoading := false })
  | some c =>
    if c = "" then
      (Except.error "Google login failed", { s with isLoading := false })
    else
      match env.decodeGoogle c with
      | none => (Except.error "Google login failed", { s with isLoading := false })
      | some g =>
        let u : User := { id := g.sub, name := g.name, email := g.email,
                          role := some Role.client }
        (Except.ok (),
         { s with
           store := { s.store with
             accessToken := some c,
             token := some c,
             user := some (env.stringifyUser u) },
           user := some u,
           isLoading := false })

/-- Source `checkAuth` (the mount-time restore): if both the stored user
and access token are present, `JSON.parse` the user (a throw jumps to the
catch, which clears the three keys without having touched the session
user), optimistically set the session user, then decode the token (a
throw likewise clears the three keys, leaving the already-set session
user in place); if decoded and expired, call `refreshTokens` (which never
throws, so its failure does not reach the catch).  `isLoading` is set to
`false` on every path.  Result: (new state, network calls made). -/
def checkAuth (env : Env) (s : AuthState) : AuthState × Nat :=
  match s.store.user, s.store.accessToken with
  | some savedUser, some accessToken =>
    (match env.parseUser savedUser with
     | none =>
       ({ s with store := clearKeys s.store, isLoading := false }, 0)
     | some parsedUser =>
       let s1 := { s with user := some parsedUser }
       match env.decode accessToken with
       | none =>
         ({ s1 with store := clearKeys s1.store, isLoading := false }, 0)
       | some decoded =>
         if decoded.exp < env.now then
           match refreshTokens env s1 with
           | (_, s2, n) => ({ s2 with isLoading := false }, n)
         else
           ({ s1 with isLoading := false }, 0))
  | _, _ => ({ s with isLoading := false }, 0)

/-- What the request interceptor hands back for one intercepted request.
`forwarded = true` means the interceptor returned the (possibly
modified) config, so the HTTP client proceeds to send the request;
`false` would model rejecting/throwing, which aborts the request.  The
source interceptor returns the config on every path and never throws
(both its try/catch blocks swallow), so no branch below produces
`false`. -/
structure InterceptResult where
  authHeader : Option String
  store : Store
  href : Option String
  netcalls : Nat
  forwarded : Bool
deriving DecidableEq, Repr

/-- Source request interceptor (`api.interceptors.request.use`): no
stored token → pass through unauthenticated; decode throw → log and pass
through unauthenticated; unexpired → attach `Bearer` header; expired
with a refresh token → inline refresh POST, attaching the new token on
success, and on failure clearing the three keys and navigating to
`/login` — then still returning the config, so the request goes out
without an Authorization header; expired with no refresh token → pass
through unauthenticated. -/
def interceptRequest (env : Env) (st : Store) (href : Option String) :
    InterceptResult :=
  match st.accessToken with
  | none => { authHeader := none, store := st, href := href, netcalls := 0, forwarded := true }
  | some accessToken =>
    match env.decode accessToken with
    | none => { authHeader := none, store := st, href := href, netcalls := 0, forwarded := true }
    | some decoded =>
      if decoded.exp < env.now then
        match st.refreshToken with
        | none => { authHeader := none, store := st, href := href, netcalls := 0, forwarded := true }
        | some rt =>
          match env.refresh rt with
          | some (newAccessToken, newRefreshToken) =>
            { authHeader := some ("Bearer " ++ newAccessToken),
              store := { st with accessToken := some newAccessToken,
                                 refreshToken := some newRefreshToken },
              href := href, netcalls := 1, forwarded := true }
          | none =>
            { authHeader := none, store := clearKeys st,
              href := some "/login", netcalls := 1, forwarded := true }
      else
        { authHeader := some ("Bearer " ++ accessToken), store := st,
          href := href, netcalls := 0, forwarded := true }

/-- The StoredCredential invariant of the spec: the three keys
`accessToken`, `refreshToken`, `user` are all present or all absent. -/
def allOrNone (st : Store) : Bool :=
  (st.accessToken.isSome && st.refreshToken.isSome && st.user.isSome) ||
  (st.accessToken.isNone && st.refreshToken.isNone && st.user.isNone)

/-! Concrete fixtures used to instantiate the universally quantified
theorems below at explicit inputs. -/

/-- A sample user record. -/
def cUser : User :=
  { id := "u1", name := "Nia", email := "nia@example.com", role := some Role.client }

/-- A concrete external world at time 100: `"fresh"` decodes with expiry
200 (unexpired), `"expired"` with expiry 10 (expired), `"newAT"` with
expiry 300, everything else fails to decode; the refresh endpoint
accepts exactly the refresh token `"rt1"`, delivering the pair
`("newAT", "newRT")`; signin accepts exactly
`("nia@example.com", "right")` and answers other attempts with the error
body `{message: "bad creds"}`; admin signin always fails with no
message; `"goodUser"` is the serialized form of `cUser` and the only
string that parses. -/
def cenv : Env :=
  { now := 100,
    decode := fun t =>
      if t = "fresh" then some { userId := "u1", exp := 200 }
      else if t = "expired" then some { userId := "u1", exp := 10 }
      else if t = "newAT" then some { userId := "u1", exp := 300 }
      else none,
    decodeGoogle := fun c =>
      if c = "gcred" then
        some { email := "g@example.com", name := "Gia", picture := "pic", sub := "s7" }
      else none,
    parseUser := fun u => if u = "goodUser" then some cUser else none,
    stringifyUser := fun _ => "goodUser",
    signin := fun e p =>
      if e = "nia@example.com" && p = "right" then LoginResult.ok cUser "fresh" "rt1"
      else LoginResult.err (some "bad creds"),
    adminSignin := fun e p =>
      if e = "root@example.com" && p = "radmin" then
        LoginResult.ok { cUser with role := some Role.admin } "fresh" "rt1"
      else LoginResult.err none,
    refresh := fun rt => if rt = "rt1" then some ("newAT", "newRT") else none,
    logoutOk := fun _ => true }

/-- The empty client state: nothing stored, no session user, loading. -/
def s0 : AuthState :=
  { store := { accessToken := none, refreshToken := none, user := none, token := none },
    user := none, isLoading := true, href := none }

/-- A fully logged-in state holding the unexpired token `"fresh"`. -/
def sFresh : AuthState :=
  { store := { accessToken := some "fresh", refreshToken := some "rt1",
               user := some "goodUser", token := none },
    user := some cUser, isLoading := false, href := none }

/-- A state holding the expired token `"expired"` and refresh token `"rt1"`. -/
def sExpired : AuthState :=
  { store := { accessToken := some "expired", refreshToken := some "rt1",
               user := some "goodUser", token := none },
    user := some cUser, isLoading := false, href := none }

/-- A state holding the expired token `"expired"` and no refresh token. -/
def sExpiredNoRt : AuthState :=
  { store := { accessToken := some "expired", refreshToken := none,
               user := some "goodUser", token := none },
    user := some cUser, isLoading := false, href := none }

example : getToken cenv sFresh = (some "fresh", sFresh, 0) := by decide
example : (getToken cenv sExpired).1 = some "newAT" := by decide
example : getToken cenv sExpiredNoRt = (none, sExpiredNoRt, 0) := by decide
example : (googleLogin cenv (some "gcred") s0).1 = Except.ok () := rfl
example : allOrNone (googleLogin cenv (some "gcred") s0).2.store = false := by decide

/-! Claim theorems. -/

/-- Claim C2: for every stored access token that decodes successfully and
whose expiry is not in the past, `getToken` returns exactly that stored
token string, leaves the state unchanged, and performs no network
call. -/
theorem getToken_fresh_token_no_network (env : Env) (s : AuthState)
    (tok : String) (d : DecodedToken)
    (hTok : s.store.accessToken = some tok)
    (hDec : env.decode tok = some d)
    (hExp : ¬ d.exp < env.now) :
    getToken env s = (some tok, s, 0) := by
  simp [getToken, hTok, hDec, hExp]

/-- Witness for C2 at the concrete unexpired token `"fresh"`. -/
theorem getToken_fresh_token_no_network_witness :
    getToken cenv sFresh = (some "fresh", sFresh, 0) :=
  getToken_fresh_token_no_network cenv sFresh "fresh"
    { userId := "u1", exp := 200 } (by decide) (by decide) (by decide)

/-- Claim C3: for every stored access token whose decoded expiry is in
the past, when a refresh token is stored and the refresh endpoint
succeeds, `getToken` performs exactly one network (refresh) call and
returns the new access token delivered by that call, which it has stored
together with the new refresh token. -/
theorem getToken_expired_refresh_success (env : Env) (s : AuthState)
    (tok : String) (d : DecodedToken) (rt newAT newRT : String)
    (hTok : s.store.accessToken = some tok)
    (hDec : env.decode tok = some d)
    (hExp : d.exp < env.now)
    (hRt : s.store.refreshToken = some rt)
    (hRef : env.refresh rt = some (newAT, newRT)) :
    getToken env s =
      (some newAT,
       { s with store := { s.store with
           accessToken := some newAT, refreshToken := some newRT } },
       1) := by
  simp [getToken, refreshTokens, hTok, hDec, hExp, hRt, hRef]

/-- Witness for C3 at the concrete expired token `"expired"` with
refresh token `"rt1"`. -/
theorem getToken_expired_refresh_success_witness :
    getToken cenv sExpired =
      (some "newAT",
       { sExpired with store := { sExpired.store with
           accessToken := some "newAT", refreshToken := some "newRT" } },
       1) :=
  getToken_expired_refresh_success cenv sExpired "expired"
    { userId := "u1", exp := 10 } "rt1" "newAT" "newRT"
    (by decide) (by decide) (by decide) (by decide) (by decide)

/-- Claim C4: for every stored access token whose decoded expiry is in
the past, when no refresh token is stored, `getToken` returns `none`,
leaves the state unchanged, and performs no network call
(`refreshTokens` short-circuits before any request). -/
theorem getToken_expired_no_refresh_token (env : Env) (s : AuthState)
    (tok : String) (d : DecodedToken)
    (hTok : s.store.accessToken = some tok)
    (hDec : env.decode tok = some d)
    (hExp : d.exp < env.now)
    (hRt : s.store.refreshToken = none) :
    getToken env s = (none, s, 0) := by
  simp [getToken, refreshTokens, hTok, hDec, hExp, hRt]

/-- Witness for C4 at the concrete expired token `"expired"` with no
stored refresh token. -/
theorem getToken_expired_no_refresh_token_witness :
    getToken cenv sExpiredNoRt = (none, sExpiredNoRt, 0) :=
  getToken_expired_no_refresh_token cenv sExpiredNoRt "expired"
    { userId := "u1", exp := 10 } (by decide) (by decide) (by decide) (by decide)

/-- Claim C5: after `logout` completes, for every prior state and every
server outcome (carried by `env`, including the swallowed logout-call
failure — `logout` is total and returns no error), the three storage
keys are all absent and the session user is null. -/
theorem logout_always_clears (env : Env) (s : AuthState) :
    (logout env s).1.store.accessToken = none ∧
    (logout env s).1.store.refreshToken = none ∧
    (logout env s).1.store.user = none ∧
    (logout env s).1.user = none := by
  simp [logout, clearKeys]

/-- Claim C6: `logout` is idempotent — after the first call the three
keys are absent and the session user is null, a second call (under any
server environment) leaves that end state exactly as it is and performs
no network request, since no access token is present. -/
theorem logout_idempotent (env1 env2 : Env) (s : AuthState) :
    (logout env2 (logout env1 s).1).1 = (logout env1 s).1 ∧
    (logout env2 (logout env1 s).1).2 = 0 ∧
    (logout env1 s).1.store.accessToken = none ∧
    (logout env1 s).1.store.refreshToken = none ∧
    (logout env1 s).1.store.user = none ∧
    (logout env1 s).1.user = none := by
  simp [logout, clearKeys]

/-- Claim C7: for every failing `login` call, the thrown error's message
is the server response's `message` field when present and
`"Invalid email or password"` otherwise, and both the session user and
the whole key-value store are left unchanged by the failed call. -/
theorem login_failure_message_and_state (env : Env) (email password : String)
    (s : AuthState) (message : Option String)
    (h : env.signin email password = LoginResult.err message) :
    (login env email password s).1 =
      Except.error (message.getD "Invalid email or password") ∧
    (login env email password s).2.1.store = s.store ∧
    (login env email password s).2.1.user = s.user := by
  cases message <;> simp [login, h]

/-- Witness for C7: signing in with a wrong password against a server
answering `{message: "bad creds"}`. -/
theorem login_failure_message_and_state_witness :
    (login cenv "nia@example.com" "wrong" sFresh).1 = Except.error "bad creds" ∧
    (login cenv "nia@example.com" "wrong" sFresh).2.1.store = sFresh.store ∧
    (login cenv "nia@example.com" "wrong" sFresh).2.1.user = sFresh.user :=
  login_failure_message_and_state cenv "nia@example.com" "wrong" sFresh
    (some "bad creds") (by decide)

/-- Claim C8: for every `credentialResponse` whose `credential` field is
missing, `googleLogin` throws `"Google login failed"` and mutates
neither the key-value store nor the session user. -/
theorem googleLogin_missing_credential_throws (env : Env) (s : AuthState) :
    (googleLogin env none s).1 = Except.error "Google login failed" ∧
    (googleLogin env none s).2.store = s.store ∧
    (googleLogin env none s).2.user = s.user := by
  simp [googleLogin]

/-- A store holding the expired token `"expired"` and a refresh token
the refresh endpoint rejects. -/
def stBadRt : Store :=
  { accessToken := some "expired", refreshToken := some "badRT",
    user := some "goodUser", token := none }

/-- A mount-time state whose stored user string fails to parse. -/
def sBadUser : AuthState :=
  { store := { accessToken := some "fresh", refreshToken := some "rt1",
               user := some "badUser", token := none },
    user := none, isLoading := true, href := none }

/-- A mount-time state whose stored user parses but whose stored access
token fails to decode. -/
def sJunkTok : AuthState :=
  { store := { accessToken := some "junk", refreshToken := some "rt1",
               user := some "goodUser", token := none },
    user := none, isLoading := true, href := none }

/-- Counterexample to claim C1: from the empty state, a successful
`googleLogin` stores `accessToken` and `user` but never writes
`refreshToken`, leaving the three keys neither all present nor all
absent. -/
theorem storedCredential_allOrNone_counterexample :
    (googleLogin cenv (some "gcred") s0).1 = Except.ok () ∧
    allOrNone (googleLogin cenv (some "gcred") s0).2.store = false :=
  ⟨rfl, by decide⟩

/-- Claim C1 as amended: the all-or-none invariant on the three keys
holds after a successful `login`, after a successful `adminLogin`, after
`refreshTokens` (any outcome) from any state satisfying it, and after
`logout` unconditionally — but not after `googleLogin`, which never
writes `refreshToken` (see the counterexample). -/
theorem storedCredential_allOrNone_amended :
    (∀ env email password s u a r,
       env.signin email password = LoginResult.ok u a r →
       allOrNone (login env email password s).2.1.store = true) ∧
    (∀ env email password s u a r,
       env.adminSignin email password = LoginResult.ok u a r →
       allOrNone (adminLogin env email password s).2.1.store = true) ∧
    (∀ env s, allOrNone s.store = true →
       allOrNone (refreshTokens env s).2.1.store = true) ∧
    (∀ env s, allOrNone (logout env s).1.store = true) := by
  refine ⟨?_, ?_, ?_, ?_⟩
  · intro env email password s u a r h
    simp [login, h, allOrNone]
  · intro env email password s u a r h
    simp [adminLogin, h, allOrNone]
  · intro env s h
    cases hrt : s.store.refreshToken with
    | none => simpa [refreshTokens, hrt] using h
    | some rt =>
      cases hr : env.refresh rt with
      | none => simp [refreshTokens, hrt, hr, allOrNone, clearKeys]
      | some p =>
        obtain ⟨a, r⟩ := p
        cases hu : s.store.user with
        | none => simp [allOrNone, hrt, hu] at h
        | some uu => simp [refreshTokens, hrt, hr, allOrNone, hu]
  · intro env s
    simp [logout, clearKeys, allOrNone]

/-- Witness for the amended C1, instantiating each preserved operation
at a concrete input. -/
theorem storedCredential_allOrNone_witness :
    allOrNone (login cenv "nia@example.com" "right" s0).2.1.store = true ∧
    allOrNone (adminLogin cenv "root@example.com" "radmin" s0).2.1.store = true ∧
    allOrNone (refreshTokens cenv sExpired).2.1.store = true ∧
    allOrNone (logout cenv sFresh).1.store = true :=
  ⟨storedCredential_allOrNone_amended.1 cenv "nia@example.com" "right" s0
     cUser "fresh" "rt1" (by decide),
   storedCredential_allOrNone_amended.2.1 cenv "root@example.com" "radmin" s0
     { cUser with role := some Role.admin } "fresh" "rt1" (by decide),
   storedCredential_allOrNone_amended.2.2.1 cenv sExpired (by decide),
   storedCredential_allOrNone_amended.2.2.2 cenv sFresh⟩

/-- Counterexample to claim C9: with the expired token `"expired"` and a
refresh token the endpoint rejects, the interceptor does clear the three
keys and set the location to `/login`, but it still returns the config
(`forwarded = true`), so the original request is sent onward
(unauthenticated) rather than being withheld. -/
theorem interceptor_refresh_failure_counterexample :
    (interceptRequest cenv stBadRt none).netcalls = 1 ∧
    (interceptRequest cenv stBadRt none).store.accessToken = none ∧
    (interceptRequest cenv stBadRt none).store.refreshToken = none ∧
    (interceptRequest cenv stBadRt none).store.user = none ∧
    (interceptRequest cenv stBadRt none).href = some "/login" ∧
    (interceptRequest cenv stBadRt none).forwarded = true ∧
    (interceptRequest cenv stBadRt none).authHeader = none := by
  decide

/-- Claim C9 as amended: for every intercepted request carrying a stored
access token that decodes with an expiry in the past, when a refresh
token is stored and the inline refresh call fails, the interceptor
removes the three storage keys, navigates to `/login`, and then still
returns the config, so the request proceeds without an Authorization
header (it is not withheld). -/
theorem interceptor_refresh_failure_amended (env : Env) (st : Store)
    (href0 : Option String) (tok : String) (d : DecodedToken) (rt : String)
    (hTok : st.accessToken = some tok)
    (hDec : env.decode tok = some d)
    (hExp : d.exp < env.now)
    (hRt : st.refreshToken = some rt)
    (hRef : env.refresh rt = none) :
    interceptRequest env st href0 =
      { authHeader := none, store := clearKeys st, href := some "/login",
        netcalls := 1, forwarded := true } := by
  simp [interceptRequest, hTok, hDec, hExp, hRt, hRef]

/-- Witness for the amended C9 at the concrete rejected refresh token. -/
theorem interceptor_refresh_failure_amended_witness :
    interceptRequest cenv stBadRt none =
      { authHeader := none, store := clearKeys stBadRt, href := some "/login",
        netcalls := 1, forwarded := true } :=
  interceptor_refresh_failure_amended cenv stBadRt none "expired"
    { userId := "u1", exp := 10 } "badRT"
    (by decide) (by decide) (by decide) (by decide) (by decide)

/-- Counterexample to claim C10: on a mount-time restore where the
stored user string fails to parse (access token present), the three keys
are removed and `isLoading` becomes false, but the session user is null
— `setUser` was never reached, so the user is not left holding an
optimistically restored value. -/
theorem checkAuth_restore_failure_counterexample :
    (checkAuth cenv sBadUser).1.store.accessToken = none ∧
    (checkAuth cenv sBadUser).1.store.refreshToken = none ∧
    (checkAuth cenv sBadUser).1.store.user = none ∧
    (checkAuth cenv sBadUser).1.isLoading = false ∧
    (checkAuth cenv sBadUser).1.user = none ∧
    (checkAuth cenv sBadUser).2 = 0 := by
  decide

/-- Claim C10 as amended: on initialization with stored user and access
token both present, the restore path removes the three storage keys and
sets `isLoading` to false in both failure cases, but the session user is
left holding the optimistically restored stored value only when the user
parsed and the token then failed to decode; when the stored user itself
fails to parse, the session user keeps its prior value (null on mount)
rather than a restored one. -/
theorem checkAuth_restore_failure_amended :
    (∀ env s su tok pu,
       s.store.user = some su → s.store.accessToken = some tok →
       env.parseUser su = some pu → env.decode tok = none →
       checkAuth env s =
         ({ s with
            user := some pu,
            store := clearKeys s.store,
            isLoading := false }, 0)) ∧
    (∀ env s su tok,
       s.store.user = some su → s.store.accessToken = some tok →
       env.parseUser su = none →
       checkAuth env s =
         ({ s with store := clearKeys s.store, isLoading := false }, 0)) := by
  constructor
  · intro env s su tok pu hu hTok hp hd
    simp [checkAuth, hu, hTok, hp, hd, clearKeys]
  · intro env s su tok hu hTok hp
    simp [checkAuth, hu, hTok, hp, clearKeys]

/-- Witness for the amended C10: the decode-failure case at `sJunkTok`
and the parse-failure case at `sBadUser`. -/
theorem checkAuth_restore_failure_amended_witness :
    checkAuth cenv sJunkTok =
      ({ sJunkTok with
         user := some cUser,
         store := clearKeys sJunkTok.store,
         isLoading := false }, 0) ∧
    checkAuth cenv sBadUser =
      ({ sBadUser with
         store := clearKeys sBadUser.store,
         isLoading := false }, 0) :=
  ⟨checkAuth_restore_failure_amended.1 cenv sJunkTok "goodUser" "junk" cUser
     (by decide) (by decide) (by decide) (by decide),
   checkAuth_restore_failure_amended.2 cenv sBadUser "badUser" "fresh"
     (by decide) (by decide) (by decide)⟩
